import Mathlib

set_option synthInstance.maxSize 6000
set_option maxHeartbeats 2000000

/-!
Verification of the MPT node-proof constraint logic of the zkevm-circuits
repository (storage leaf gadget, `mpt_circuit/storage_leaf.rs`, and the
modified-extension gadget, `mpt_circuit/mod_extension.rs`).

The constraint systems built by `StorageLeafConfig::configure` and
`ModExtensionGadget::configure` are embedded shallowly: every `require!`
emitted by the source, together with the `ifx!`/`elsex`/`matchx!` guards
around it, becomes one conjunct of a `Prop`-valued predicate over an
assignment record.  The outputs of the helper gadgets that the source calls
into (`LeafKeyGadget`, `RLPValueGadget`, `KeyData`/`ParentData` channel
loads, `LtGadget`, ...) live in crates or modules whose code is not part of
the excerpted core; their per-row outputs are therefore carried as fields of
the assignment record, and the few arithmetic helpers whose shape matters
(`rlc_chain`, `rlc_chain_rev`, `drifted_nibble_rlc`, the per-row key RLC used
at witness-assignment time) are modelled from the specification's
description, each marked as such in its doc comment.

Lineage convention follows the source: `true` is the S (before) lineage and
`false` the C (after) lineage, exactly as `is_s : bool` in the Rust code.
-/

namespace MptCore

/-- Lineage selector, identical to the source's `is_s` boolean: `true` = S
(before state), `false` = C (after state). -/
abbrev Lineage := Bool

/-- Contents of one `KeyData` channel slot as loaded by `KeyData::load`:
the running key RLC, its multiplier, the accumulated nibble count, the
odd/even parity, the pre-divergence (one node earlier) snapshot
`parent_rlc`/`parent_mult`, the placeholder branch nibble and its parity,
and the `is_placeholder_leaf_c` flag read by the wrong-leaf sub-case. -/
structure KeyData (F : Type) where
  rlc : F
  mult : F
  numNibbles : F
  isOdd : Bool
  parentRlc : F
  parentMult : F
  placeholderNibble : F
  placeholderIsOdd : Bool
  isPlaceholderLeafC : Bool

/-- Contents of one `ParentData` channel slot as loaded by
`ParentData::load`: the parent commitment RLC, the root flag, the
placeholder-branch flag, the placeholder branch's claimed child commitment
`placeholder_rlc`, and the lo/hi halves of the parent hash word used by the
modified-extension gadget's Keccak lookup. -/
structure ParentData (F : Type) where
  rlc : F
  isRoot : Bool
  isPlaceholder : Bool
  placeholderRlc : F
  hashLo : F
  hashHi : F

/-- Externally supplied lookup relations and challenge data, matching the
spec's external interfaces: the Keccak relation in the 4-argument form used
by the storage leaf (`(1, input_rlc, input_len, parent_rlc)`), the Keccak
relation in the 5-argument lo/hi form used by the modified-extension gadget,
the fixed `RMult` table `(num_bytes, multiplier)`, the fixed `ExtOddKey`
parity-classification table `(first_byte, parity)`, the RLC challenge `r`,
and the RLC of the canonical empty-trie encoding that
`IsEmptyTreeGadget` compares the loaded parent reference against. -/
structure MptContext (F : Type) where
  r : F
  emptyTrieRlc : F
  keccak : F → F → F → Prop
  keccakWord : F → F → F → F → Prop
  rmult : F → F → Prop
  extOddKey : F → Bool → Prop

/-- Modelled from the spec: `RLCChainable.rlc_chain` — the node RLC is the
key-row RLC extended by the value-row RLC scaled by the multiplier covering
the key-row bytes (`leaf_rlc = rlp_key.rlc + key_mult * value_rlp_rlc`). -/
@[reducible] def rlcChain {F : Type} [Field F] (rlc mult rest : F) : F :=
  rlc + mult * rest

/-- Modelled from the spec: `RLCChainableRev.rlc_chain_rev` — the key
segment chained in reverse with the value segment: the key-segment RLC is
scaled by the value segment's multiplier and the value-segment RLC added. -/
@[reducible] def rlcChainRev {F : Type} [Field F] (keyRlc valueRlc valueMult : F) : F :=
  keyRlc * valueMult + valueRlc

/-- Modelled from the spec: `helpers::drifted_nibble_rlc` — the contribution
of the single drifted nibble inserted at the divergence point, scaled by the
current key multiplier; the parity decides whether the nibble occupies the
high or the low half of its byte. -/
@[reducible] def driftedNibbleRlc {F : Type} [Field F] (nibble mult : F) (isOdd : Bool) : F :=
  if isOdd then nibble * mult * 16 else nibble * mult

/-- One full witness assignment of the storage-leaf gadget: the channel
loads, queried cells, helper-gadget outputs (per lineage where the source
indexes by `is_s`), and the public output-table cells the gadget's
constraints touch.  Byte-length quantities are range-checked small values in
the circuit and are carried as naturals. -/
structure StorageLeafAssignment (F : Type) where
  keyData : Lineage → KeyData F
  keyDataW : KeyData F
  parentData : Lineage → ParentData F
  keyMult : Lineage → F
  rlpKeyNumBytes : Lineage → ℕ
  rlpKeyNumBytesOnKeyRow : Lineage → ℕ
  rlpKeyRlc : Lineage → F
  leafKeyRlcPart : Lineage → F
  numKeyNibbles : Lineage → ℕ
  keyLen : Lineage → ℕ
  valueNumBytes : Lineage → ℕ
  valueRlc : Lineage → F
  valueRlpRlc : Lineage → F
  driftedNumBytes : ℕ
  driftedNumBytesOnKeyRow : ℕ
  driftedRlpKeyRlc : F
  driftedMult : F
  driftedLeafKeyRlcPartFn : F → Bool → F
  wrongNumBytesOnKeyRow : ℕ
  wrongKeyLen : ℕ
  wrongLeafKeyRlcPart : F
  isWrongLeaf : F
  isNonExistingStorageProof : Bool
  tableKeyRlc : F
  tableValuePrev : F
  tableValue : F
  tableKeyRlcWrong : F

variable {F : Type} [Field F]

/-- Placeholder-leaf test of `IsEmptyTreeGadget`: the loaded parent
reference equals the canonical empty-trie encoding (storage_leaf.rs line 86-88). -/
@[reducible] def isPlaceholderLeaf (ctx : MptContext F) (a : StorageLeafAssignment F) (s : Lineage) : Prop :=
  (a.parentData s).rlc = ctx.emptyTrieRlc

/-- Full node RLC of a lineage's leaf (storage_leaf.rs lines 105-106):
key-row RLC chained with the value-row RLC. -/
@[reducible] def leafRlc (a : StorageLeafAssignment F) (s : Lineage) : F :=
  rlcChain (a.rlpKeyRlc s) (a.keyMult s) (a.valueRlpRlc s)

/-- Leaf key RLC of a lineage (storage_leaf.rs lines 108-117): the loaded
running key RLC plus the leaf's own key-nibble contribution. -/
@[reducible] def leafKeyRlc (a : StorageLeafAssignment F) (s : Lineage) : F :=
  (a.keyData s).rlc + a.leafKeyRlcPart s

/-- Wrong-leaf candidate key RLC (storage_leaf.rs lines 230-237): computed
from the alternate (address 1) key-channel snapshot `key_data_w`. -/
@[reducible] def wrongKeyRlc (a : StorageLeafAssignment F) : F :=
  a.keyDataW.rlc + a.wrongLeafKeyRlcPart

/-- Per-lineage constraints of `StorageLeafConfig::configure`
(storage_leaf.rs lines 72-165), in source order: the `RMult` fixed lookup
for the key-row multiplier, the nibble-count identity, the placeholder
value-RLC identity, the RLP list-length identity, and the parent binding
(Keccak lookup when the node is hashed or is the root, direct RLC equality
otherwise), the last four each under their `ifx!` placeholder guards. -/
@[reducible] def lineageConstraints (ctx : MptContext F) (a : StorageLeafAssignment F) (s : Lineage) : Prop :=
  ctx.rmult (a.rlpKeyNumBytesOnKeyRow s : F) (a.keyMult s) ∧
  (¬ isPlaceholderLeaf ctx a s →
    (a.keyData s).numNibbles + (a.numKeyNibbles s : F) = 64) ∧
  (isPlaceholderLeaf ctx a s → a.valueRlc s = 0) ∧
  (¬ isPlaceholderLeaf ctx a s →
    (a.rlpKeyNumBytes s : F) = (a.rlpKeyNumBytesOnKeyRow s : F) + (a.valueNumBytes s : F)) ∧
  (¬ isPlaceholderLeaf ctx a s →
    (((a.parentData s).isRoot = true ∨ ¬ a.rlpKeyNumBytes s < 32) →
      ctx.keccak (leafRlc a s) (a.rlpKeyNumBytes s : F) (a.parentData s).rlc) ∧
    (¬ ((a.parentData s).isRoot = true ∨ ¬ a.rlpKeyNumBytes s < 32) →
      leafRlc a s = (a.parentData s).rlc))

/-- The pre-divergence key snapshot selected by the drifted clause
(storage_leaf.rs lines 172-186): the `ifx!` condition is
`parent_data[S].is_placeholder`, so the snapshot is read from the S
lineage's key data when the S parent is the placeholder and from the C
lineage's key data otherwise. -/
@[reducible] def driftedSnapshot (a : StorageLeafAssignment F) : KeyData F :=
  if (a.parentData true).isPlaceholder = true then a.keyData true else a.keyData false

/-- Stated from the spec sentence of the drifted-leaf clause, for comparison
with `driftedSnapshot`: the snapshot is taken from whichever lineage is NOT
the placeholder. -/
@[reducible] def driftedSnapshotSpec (a : StorageLeafAssignment F) : KeyData F :=
  if (a.parentData true).isPlaceholder = true then a.keyData false else a.keyData true

/-- Reconstructed drifted key RLC as the source computes it
(storage_leaf.rs lines 188-191), from a given snapshot: pre-divergence RLC,
plus the single drifted nibble at the pre-divergence multiplier/parity, plus
the drifted row's own key contribution at that multiplier/parity. -/
@[reducible] def driftedKeyRlcFrom (a : StorageLeafAssignment F) (kd : KeyData F) : F :=
  kd.parentRlc
    + driftedNibbleRlc kd.placeholderNibble kd.parentMult kd.placeholderIsOdd
    + a.driftedLeafKeyRlcPartFn kd.parentMult kd.placeholderIsOdd

/-- The lineage selected by the drifted clause's `matchx!`
(storage_leaf.rs lines 204-213): S when the S parent is the placeholder,
C otherwise. -/
@[reducible] def driftedChosen (a : StorageLeafAssignment F) : Lineage :=
  (a.parentData true).isPlaceholder

/-- Full RLC of the drifted leaf (storage_leaf.rs lines 199-203): the
drifted key-row RLC chained with the chosen lineage's value-row RLC. -/
@[reducible] def driftedFullRlc (a : StorageLeafAssignment F) : F :=
  rlcChain a.driftedRlpKeyRlc a.driftedMult (a.valueRlpRlc (driftedChosen a))

/-- Drifted-leaf clause (storage_leaf.rs lines 167-218), active when either
lineage's parent is a placeholder branch: the `RMult` lookup for the drifted
key row, the exactly-one-placeholder side condition of `matchx!`, the key
equality between the chosen lineage's leaf key RLC and the reconstructed
drifted key RLC, and the Keccak binding of the drifted leaf into the
branch's claimed child commitment. -/
@[reducible] def driftedClause (ctx : MptContext F) (a : StorageLeafAssignment F) : Prop :=
  ((a.parentData true).isPlaceholder = true ∨ (a.parentData false).isPlaceholder = true) →
    (ctx.rmult (a.driftedNumBytesOnKeyRow : F) a.driftedMult ∧
     ¬ ((a.parentData true).isPlaceholder = true ∧ (a.parentData false).isPlaceholder = true) ∧
     leafKeyRlc a (driftedChosen a) = driftedKeyRlcFrom a (driftedSnapshot a) ∧
     ctx.keccak (driftedFullRlc a) (a.driftedNumBytes : F)
       (a.parentData (driftedChosen a)).placeholderRlc)

/-- Wrong-leaf clause (storage_leaf.rs lines 220-256): `is_wrong_leaf` is
boolean; under a non-existing-storage proof, if a wrong leaf is supplied its
candidate key RLC must equal the key requested in the output table, differ
from the real (C) leaf's key RLC (a not-equal-to-zero check on the
difference), and have the same key length as the real leaf, while without a
wrong leaf the alternate channel's C placeholder flag must be asserted;
outside non-existing-storage proofs `is_wrong_leaf` must be 0. -/
@[reducible] def wrongLeafClause (a : StorageLeafAssignment F) : Prop :=
  a.isWrongLeaf * (a.isWrongLeaf - 1) = 0 ∧
  (a.isNonExistingStorageProof = true →
    (a.isWrongLeaf ≠ 0 →
      a.tableKeyRlcWrong = wrongKeyRlc a ∧
      a.tableKeyRlcWrong - leafKeyRlc a false ≠ 0 ∧
      (a.wrongKeyLen : F) = (a.keyLen false : F)) ∧
    (a.isWrongLeaf ≠ 1 → a.keyDataW.isPlaceholderLeafC = true)) ∧
  (a.isNonExistingStorageProof = false → a.isWrongLeaf = 0)

/-- Output-table bindings (storage_leaf.rs lines 258-261): the key RLC of
the C leaf, the S value RLC as previous value, the C value RLC as new
value. -/
@[reducible] def tableClause (a : StorageLeafAssignment F) : Prop :=
  a.tableKeyRlc = leafKeyRlc a false ∧
  a.tableValuePrev = a.valueRlc true ∧
  a.tableValue = a.valueRlc false

/-- The complete constraint system emitted by `StorageLeafConfig::configure`
for one storage-leaf node pair. -/
@[reducible] def storageLeafConstraints (ctx : MptContext F) (a : StorageLeafAssignment F) : Prop :=
  lineageConstraints ctx a true ∧
  lineageConstraints ctx a false ∧
  driftedClause ctx a ∧
  wrongLeafClause a ∧
  tableClause a


/-- One witness assignment of the modified-extension gadget: per lineage
(`true` = long/S variant, `false` = short/C variant) the `ListKeyGadget`
outputs on the key row, the value item's RLC chain data, the classified
first key byte with its parity cell, and the parent references. -/
structure ModExtAssignment (F : Type) where
  listLen : Lineage → ℕ
  listNumBytes : Lineage → ℕ
  keyValueNumBytes : Lineage → ℕ
  valueNumBytes : Lineage → ℕ
  keyRlc2 : Lineage → F
  valueChainRlc : Lineage → F
  valueChainMult : Lineage → F
  firstByte : Lineage → ℕ
  isKeyPartOdd : Lineage → Bool
  parentData : Lineage → ParentData F

/-- Combined node RLC exactly as `ModExtensionGadget::configure` computes it
(mod_extension.rs lines 87-91): the KEY segment is always taken from
`rlp_key[0]`, the long (index 0, `is_s = true`) variant, while the value
segment is the lineage's own. -/
@[reducible] def modExtNodeRlc (a : ModExtAssignment F) (s : Lineage) : F :=
  rlcChainRev (a.keyRlc2 true) (a.valueChainRlc s) (a.valueChainMult s)

/-- Stated from the spec sentence for comparison with `modExtNodeRlc`: the
combined node RLC of a lineage built from that same lineage's OWN key
segment chained in reverse with its value segment. -/
@[reducible] def modExtNodeRlcOwn (a : ModExtAssignment F) (s : Lineage) : F :=
  rlcChainRev (a.keyRlc2 s) (a.valueChainRlc s) (a.valueChainMult s)

/-- Per-lineage constraints of `ModExtensionGadget::configure`
(mod_extension.rs lines 71-86): the `ExtOddKey` fixed lookup classifying the
first key byte, and the RLP list-length identity
`rlp_list.len = key_value.num_bytes + value.num_bytes`. -/
@[reducible] def modExtLineageConstraints (ctx : MptContext F) (a : ModExtAssignment F)
    (s : Lineage) : Prop :=
  ctx.extOddKey (a.firstByte s : F) (a.isKeyPartOdd s) ∧
  (a.listLen s : F) = (a.keyValueNumBytes s : F) + (a.valueNumBytes s : F)

/-- The complete constraint system emitted by `ModExtensionGadget::configure`
(mod_extension.rs lines 41-125): both lineages' RLP checks plus, for the S
lineage only, the parent binding — a lo/hi Keccak lookup when the node is
hashed or is the root, direct RLC equality against the parent otherwise. -/
@[reducible] def modExtConstraints (ctx : MptContext F) (a : ModExtAssignment F) : Prop :=
  modExtLineageConstraints ctx a true ∧
  modExtLineageConstraints ctx a false ∧
  (((a.parentData true).isRoot = true ∨ ¬ a.listNumBytes true < 32) →
    ctx.keccakWord (modExtNodeRlc a true) (a.listNumBytes true : F)
      (a.parentData true).hashLo (a.parentData true).hashHi) ∧
  (¬ ((a.parentData true).isRoot = true ∨ ¬ a.listNumBytes true < 32) →
    modExtNodeRlc a true = (a.parentData true).rlc)

/-- Modelled from the spec: plain byte-sequence RLC used by witness
generation (`RLCableValue`), combining a byte sequence with powers of the
challenge. -/
@[reducible] def bytesRlc (r : F) : List ℕ → F
  | [] => 0
  | b :: bs => (b : F) + r * bytesRlc r bs

/-- Modelled from the spec: `leaf_key_rlc` of a key-row witness at
assignment time — the running key RLC extended, at the running multiplier,
by the RLC of the row's bytes. -/
@[reducible] def leafKeyRlcBytes (r keyRlc keyMult : F) (bytes : List ℕ) : F :=
  keyRlc + keyMult * bytesRlc r bytes

/-- Wrong-leaf key RLC as computed by `StorageLeafConfig::assign`
(storage_leaf.rs lines 400-405): the wrong row's bytes with the byte at
index 0 replaced by the first byte of the C-lineage key row, fed to the
key-RLC computation at the running key RLC/multiplier pair. -/
@[reducible] def assignWrongKeyRlc (r pvKeyRlc pvKeyRlcMult : F)
    (wrongBytes keyCBytes : List ℕ) : F :=
  leafKeyRlcBytes r pvKeyRlc pvKeyRlcMult (wrongBytes.set 0 keyCBytes.headI)

/-- Proof-type tags written by `StorageLeafConfig::assign` into the
`proof_type` column (from `table::ProofType`): only the two variants the
storage-leaf assignment path uses are modelled. -/
inductive MptProofType where
  | storageChanged
  | storageDoesNotExist
deriving DecidableEq, Repr

/-- Inputs of the table-writing tail of `StorageLeafConfig::assign`
(storage_leaf.rs lines 385-423): the wrong row's bytes, the C key row's
bytes, the two selector bytes read with `get_byte_rev`, the running key
RLC/multiplier pair of the proof values, and the already-computed key/value
RLCs of the two lineages. -/
structure StorageLeafAssignInput (F : Type) where
  wrongRowBytes : List ℕ
  keyRowCBytes : List ℕ
  nonExistingByte : ℕ
  storageModByte : ℕ
  pvKeyRlc : F
  pvKeyRlcMult : F
  keyRlcC : F
  valueRlcS : F
  valueRlcC : F

/-- Cells written into the public output table by the assignment pass. -/
structure AssignedTableRows (F : Type) where
  wrongRowKeyRlc : Option F
  wrongRowProofType : Option MptProofType
  lookupRowProofType : Option MptProofType
  lookupRowKeyRlc : F
  lookupRowValuePrev : F
  lookupRowValue : F

/-- Table-writing tail of `StorageLeafConfig::assign` (storage_leaf.rs
lines 385-423): when the non-existing-storage selector byte is 1 the wrong
row receives the wrong-key RLC and the `StorageDoesNotExist` tag; when the
storage-modified selector byte is 1 the lookup row receives the
`StorageChanged` tag; the lookup row always receives the C key RLC, the S
value RLC as previous value and the C value RLC as new value. -/
@[reducible] def storageLeafAssignTable (r : F) (inp : StorageLeafAssignInput F) :
    AssignedTableRows F :=
  { wrongRowKeyRlc :=
      if inp.nonExistingByte = 1 then
        some (assignWrongKeyRlc r inp.pvKeyRlc inp.pvKeyRlcMult
          inp.wrongRowBytes inp.keyRowCBytes)
      else none
    wrongRowProofType :=
      if inp.nonExistingByte = 1 then some MptProofType.storageDoesNotExist else none
    lookupRowProofType :=
      if inp.storageModByte = 1 then some MptProofType.storageChanged else none
    lookupRowKeyRlc := inp.keyRlcC
    lookupRowValuePrev := inp.valueRlcS
    lookupRowValue := inp.valueRlcC }


/-- Concrete prime field used for explicit witnesses and counterexamples. -/
abbrev Fp := ZMod 101

instance fact101prime : Fact (Nat.Prime 101) := ⟨by norm_num⟩

/-- Concrete `KeyData` slot shared by the explicit assignments below. -/
@[reducible] def kdBase : KeyData Fp :=
  { rlc := 0, mult := 1, numNibbles := 60, isOdd := false, parentRlc := 0,
    parentMult := 1, placeholderNibble := 0, placeholderIsOdd := false,
    isPlaceholderLeafC := false }

/-- Concrete non-root, non-placeholder `ParentData` slot. -/
@[reducible] def pdHashed : ParentData Fp :=
  { rlc := 7, isRoot := false, isPlaceholder := false, placeholderRlc := 0,
    hashLo := 0, hashHi := 0 }

/-- Concrete context for the hashed-leaf assignments. -/
@[reducible] def ctxA : MptContext Fp :=
  { r := 2, emptyTrieRlc := 100,
    keccak := fun x y z => (x, y, z) ∈ [((43 : Fp), 35, 7)],
    keccakWord := fun _ _ _ _ => False,
    rmult := fun x y => (x, y) ∈ [((3 : Fp), 8)],
    extOddKey := fun _ _ => False }

/-- Satisfying assignment of the storage-leaf constraints: both lineages
hashed (35 bytes) into a non-root parent, a non-existing-storage proof with
a wrong leaf supplied. -/
@[reducible] def aA : StorageLeafAssignment Fp :=
  { keyData := fun _ => kdBase
    keyDataW := kdBase
    parentData := fun _ => pdHashed
    keyMult := fun _ => 8
    rlpKeyNumBytes := fun _ => 35
    rlpKeyNumBytesOnKeyRow := fun _ => 3
    rlpKeyRlc := fun _ => 3
    leafKeyRlcPart := fun _ => 17
    numKeyNibbles := fun _ => 4
    keyLen := fun _ => 2
    valueNumBytes := fun _ => 32
    valueRlc := fun s => if s then 9 else 11
    valueRlpRlc := fun _ => 5
    driftedNumBytes := 0
    driftedNumBytesOnKeyRow := 0
    driftedRlpKeyRlc := 0
    driftedMult := 0
    driftedLeafKeyRlcPartFn := fun _ _ => 0
    wrongNumBytesOnKeyRow := 3
    wrongKeyLen := 2
    wrongLeafKeyRlcPart := 23
    isWrongLeaf := 1
    isNonExistingStorageProof := true
    tableKeyRlc := 17
    tableValuePrev := 9
    tableValue := 11
    tableKeyRlcWrong := 23 }


/-- Concrete context for the root-inline assignment (10-byte leaf). -/
@[reducible] def ctxB : MptContext Fp :=
  { r := 2, emptyTrieRlc := 100,
    keccak := fun x y z => (x, y, z) ∈ [((43 : Fp), 10, 7)],
    keccakWord := fun _ _ _ _ => False,
    rmult := fun x y => (x, y) ∈ [((3 : Fp), 8)],
    extOddKey := fun _ _ => False }

/-- Satisfying assignment in which both lineages' leaves are shorter than 32
bytes but sit at the trie root: the source then takes the Keccak branch even
though the byte length is below the hash width, and the leaf RLC (43) never
has to equal the parent RLC (7). -/
@[reducible] def aB : StorageLeafAssignment Fp :=
  { keyData := fun _ => kdBase
    keyDataW := kdBase
    parentData := fun _ =>
      { rlc := 7, isRoot := true, isPlaceholder := false, placeholderRlc := 0,
        hashLo := 0, hashHi := 0 }
    keyMult := fun _ => 8
    rlpKeyNumBytes := fun _ => 10
    rlpKeyNumBytesOnKeyRow := fun _ => 3
    rlpKeyRlc := fun _ => 3
    leafKeyRlcPart := fun _ => 17
    numKeyNibbles := fun _ => 4
    keyLen := fun _ => 2
    valueNumBytes := fun _ => 7
    valueRlc := fun s => if s then 9 else 11
    valueRlpRlc := fun _ => 5
    driftedNumBytes := 0
    driftedNumBytesOnKeyRow := 0
    driftedRlpKeyRlc := 0
    driftedMult := 0
    driftedLeafKeyRlcPartFn := fun _ _ => 0
    wrongNumBytesOnKeyRow := 0
    wrongKeyLen := 0
    wrongLeafKeyRlcPart := 0
    isWrongLeaf := 0
    isNonExistingStorageProof := false
    tableKeyRlc := 17
    tableValuePrev := 9
    tableValue := 11
    tableKeyRlcWrong := 0 }


/-- Concrete context for the placeholder-leaf assignment. -/
@[reducible] def ctxC : MptContext Fp :=
  { r := 2, emptyTrieRlc := 100,
    keccak := fun x y z => (x, y, z) ∈ [((43 : Fp), 35, 7)],
    keccakWord := fun _ _ _ _ => False,
    rmult := fun x y => (x, y) ∈ [((3 : Fp), 8)],
    extOddKey := fun _ _ => False }

/-- Satisfying assignment whose S lineage is a placeholder leaf (its loaded
parent reference equals the empty-trie RLC 100): the S value RLC is 0 as the
placeholder clause demands, while the S key and value rows are dummy bytes
whose lengths (5, 3, 9) deliberately fail the RLP list-length identity,
which the source does not require for a placeholder leaf. -/
@[reducible] def aC : StorageLeafAssignment Fp :=
  { keyData := fun _ => kdBase
    keyDataW := kdBase
    parentData := fun s =>
      if s then
        { rlc := 100, isRoot := false, isPlaceholder := false, placeholderRlc := 0,
          hashLo := 0, hashHi := 0 }
      else pdHashed
    keyMult := fun _ => 8
    rlpKeyNumBytes := fun s => if s then 5 else 35
    rlpKeyNumBytesOnKeyRow := fun _ => 3
    rlpKeyRlc := fun _ => 3
    leafKeyRlcPart := fun _ => 17
    numKeyNibbles := fun _ => 4
    keyLen := fun _ => 2
    valueNumBytes := fun s => if s then 9 else 32
    valueRlc := fun s => if s then 0 else 11
    valueRlpRlc := fun _ => 5
    driftedNumBytes := 0
    driftedNumBytesOnKeyRow := 0
    driftedRlpKeyRlc := 0
    driftedMult := 0
    driftedLeafKeyRlcPartFn := fun _ _ => 0
    wrongNumBytesOnKeyRow := 0
    wrongKeyLen := 0
    wrongLeafKeyRlcPart := 0
    isWrongLeaf := 0
    isNonExistingStorageProof := false
    tableKeyRlc := 17
    tableValuePrev := 0
    tableValue := 11
    tableKeyRlcWrong := 0 }


/-- Concrete context for the drifted-leaf assignment. -/
@[reducible] def ctxD : MptContext Fp :=
  { r := 2, emptyTrieRlc := 100,
    keccak := fun x y z =>
      (x, y, z) ∈ [((43 : Fp), 35, 7), (43, 35, 8), (44, 35, 77)],
    keccakWord := fun _ _ _ _ => False,
    rmult := fun x y => (x, y) ∈ [((3 : Fp), 8)],
    extOddKey := fun _ _ => False }

/-- Satisfying assignment with an active drifted-leaf clause: the S parent
is the placeholder branch, the S key channel's pre-divergence snapshot is 40
while the C key channel's is 50, and the drifted-key reconstruction
(40 + 2 + 1 = 43) matches the S leaf's key RLC. -/
@[reducible] def aD : StorageLeafAssignment Fp :=
  { keyData := fun s =>
      if s then { kdBase with parentRlc := 40, placeholderNibble := 2 }
      else { kdBase with parentRlc := 50, placeholderNibble := 2 }
    keyDataW := kdBase
    parentData := fun s =>
      if s then
        { rlc := 7, isRoot := false, isPlaceholder := true, placeholderRlc := 77,
          hashLo := 0, hashHi := 0 }
      else
        { rlc := 8, isRoot := false, isPlaceholder := false, placeholderRlc := 0,
          hashLo := 0, hashHi := 0 }
    keyMult := fun _ => 8
    rlpKeyNumBytes := fun _ => 35
    rlpKeyNumBytesOnKeyRow := fun _ => 3
    rlpKeyRlc := fun _ => 3
    leafKeyRlcPart := fun s => if s then 43 else 17
    numKeyNibbles := fun _ => 4
    keyLen := fun _ => 2
    valueNumBytes := fun _ => 32
    valueRlc := fun s => if s then 9 else 11
    valueRlpRlc := fun _ => 5
    driftedNumBytes := 35
    driftedNumBytesOnKeyRow := 3
    driftedRlpKeyRlc := 4
    driftedMult := 8
    driftedLeafKeyRlcPartFn := fun m _ => m
    wrongNumBytesOnKeyRow := 0
    wrongKeyLen := 0
    wrongLeafKeyRlcPart := 0
    isWrongLeaf := 0
    isNonExistingStorageProof := false
    tableKeyRlc := 17
    tableValuePrev := 9
    tableValue := 11
    tableKeyRlcWrong := 0 }


/-- Concrete context for the modified-extension assignment. -/
@[reducible] def ctxM : MptContext Fp :=
  { r := 2, emptyTrieRlc := 100,
    keccak := fun _ _ _ => False,
    keccakWord := fun a b c d => (a, b, c, d) ∈ [((17 : Fp), 40, 21, 22)],
    rmult := fun _ _ => False,
    extOddKey := fun b o => (b, o) ∈ [((32 : Fp), false)] }

/-- Satisfying assignment of the modified-extension constraints whose long
and short key segments have different RLCs (3 versus 9), exposing that the
source always chains the long (index 0) key segment. -/
@[reducible] def aM : ModExtAssignment Fp :=
  { listLen := fun _ => 10
    listNumBytes := fun _ => 40
    keyValueNumBytes := fun _ => 4
    valueNumBytes := fun _ => 6
    keyRlc2 := fun s => if s then 3 else 9
    valueChainRlc := fun _ => 5
    valueChainMult := fun _ => 4
    firstByte := fun _ => 32
    isKeyPartOdd := fun _ => false
    parentData := fun _ =>
      { rlc := 0, isRoot := false, isPlaceholder := false, placeholderRlc := 0,
        hashLo := 21, hashHi := 22 } }


/-- Concrete input of the assignment pass's table-writing tail, for a
non-existing-storage proof. -/
@[reducible] def inpA : StorageLeafAssignInput Fp :=
  { wrongRowBytes := [1, 2, 3]
    keyRowCBytes := [9, 2, 3]
    nonExistingByte := 1
    storageModByte := 0
    pvKeyRlc := 0
    pvKeyRlcMult := 1
    keyRlcC := 17
    valueRlcS := 9
    valueRlcC := 11 }

/-- Projection of the full storage-leaf constraint system onto one lineage. -/
theorem lineage_of_storageLeaf {F : Type} [Field F] (ctx : MptContext F)
    (a : StorageLeafAssignment F) (h : storageLeafConstraints ctx a) (s : Lineage) :
    lineageConstraints ctx a s := by
  cases s
  · exact h.2.1
  · exact h.1

/-- Claim C1, counterexample: a satisfying assignment (`aB`) of the
storage-leaf constraints in which the S leaf is not a placeholder and its
encoded byte length (10) is below 32, yet its RLC never equals the parent's
RLC — the source takes the Keccak branch because the parent is the trie
root, so the claim's pure byte-length selection is violated. -/
theorem storage_leaf_inline_binding_cex :
    storageLeafConstraints ctxB aB ∧
    ¬ isPlaceholderLeaf ctxB aB true ∧
    aB.rlpKeyNumBytes true < 32 ∧
    leafRlc aB true ≠ (aB.parentData true).rlc := by
  decide

/-- Claim C1 (amended): for a non-placeholder storage leaf the parent
binding is selected by byte length OR the root flag — Keccak lookup when
the byte length is at least 32 or the parent is the trie root, direct RLC
equality when the byte length is below 32 and the parent is not the root;
exactly one of the two selectors applies. -/
theorem storage_leaf_parent_binding {F : Type} [Field F] (ctx : MptContext F)
    (a : StorageLeafAssignment F) (s : Lineage) (h : storageLeafConstraints ctx a)
    (hnp : ¬ isPlaceholderLeaf ctx a s) :
    (((a.parentData s).isRoot = true ∨ 32 ≤ a.rlpKeyNumBytes s) →
      ctx.keccak (leafRlc a s) (a.rlpKeyNumBytes s : F) (a.parentData s).rlc) ∧
    ((a.parentData s).isRoot = false ∧ a.rlpKeyNumBytes s < 32 →
      leafRlc a s = (a.parentData s).rlc) ∧
    (((a.parentData s).isRoot = true ∨ 32 ≤ a.rlpKeyNumBytes s) ↔
      ¬ ((a.parentData s).isRoot = false ∧ a.rlpKeyNumBytes s < 32)) := by
  obtain ⟨-, -, -, -, hbind⟩ := lineage_of_storageLeaf ctx a h s
  obtain ⟨hk, he⟩ := hbind hnp
  refine ⟨?_, ?_, ?_⟩
  · rintro (hr | hge)
    · exact hk (Or.inl hr)
    · exact hk (Or.inr (by omega))
  · rintro ⟨hr, hlt⟩
    refine he ?_
    rintro (h1 | h2)
    · rw [hr] at h1
      exact Bool.false_ne_true h1
    · exact h2 hlt
  · constructor
    · rintro (hr | hge) ⟨hf, hlt⟩
      · rw [hf] at hr
        exact Bool.false_ne_true hr
      · omega
    · intro hnot
      by_cases hr : (a.parentData s).isRoot = true
      · exact Or.inl hr
      · refine Or.inr ?_
        have hf : (a.parentData s).isRoot = false := by
          cases hb : (a.parentData s).isRoot
          · rfl
          · exact absurd hb hr
        by_contra hlt
        exact hnot ⟨hf, by omega⟩

/-- Claim C1, witness: the amended binding rule instantiated at the
satisfying hashed assignment `aA`, S lineage. -/
theorem storage_leaf_parent_binding_w :
    storageLeafConstraints ctxA aA ∧ ¬ isPlaceholderLeaf ctxA aA true ∧
    ((((aA.parentData true).isRoot = true ∨ 32 ≤ aA.rlpKeyNumBytes true) →
      ctxA.keccak (leafRlc aA true) (aA.rlpKeyNumBytes true : Fp) (aA.parentData true).rlc) ∧
    ((aA.parentData true).isRoot = false ∧ aA.rlpKeyNumBytes true < 32 →
      leafRlc aA true = (aA.parentData true).rlc) ∧
    (((aA.parentData true).isRoot = true ∨ 32 ≤ aA.rlpKeyNumBytes true) ↔
      ¬ ((aA.parentData true).isRoot = false ∧ aA.rlpKeyNumBytes true < 32))) :=
  ⟨by decide, by decide, storage_leaf_parent_binding ctxA aA true (by decide) (by decide)⟩

/-- Claim C2: for a storage leaf whose loaded parent reference is not the
empty-trie placeholder, the accumulated nibble count plus the leaf's own
key-nibble count must equal 64. -/
theorem storage_leaf_nibble_count {F : Type} [Field F] (ctx : MptContext F)
    (a : StorageLeafAssignment F) (s : Lineage) (h : storageLeafConstraints ctx a)
    (hnp : ¬ isPlaceholderLeaf ctx a s) :
    (a.keyData s).numNibbles + (a.numKeyNibbles s : F) = 64 :=
  (lineage_of_storageLeaf ctx a h s).2.1 hnp

/-- Claim C2, witness: the nibble-count identity instantiated at the
satisfying assignment `aA`, S lineage. -/
theorem storage_leaf_nibble_count_w :
    storageLeafConstraints ctxA aA ∧ ¬ isPlaceholderLeaf ctxA aA true ∧
    (aA.keyData true).numNibbles + (aA.numKeyNibbles true : Fp) = 64 :=
  ⟨by decide, by decide, storage_leaf_nibble_count ctxA aA true (by decide) (by decide)⟩

/-- Claim C3: in a non-existing-storage proof with a wrong leaf supplied,
any satisfying assignment has the wrong-leaf key RLC equal to the key RLC
requested in the output table, different from the real (C) leaf's key RLC,
and the wrong leaf's key length equal to the real leaf's. -/
theorem storage_leaf_wrong_leaf_checks {F : Type} [Field F] (ctx : MptContext F)
    (a : StorageLeafAssignment F) (h : storageLeafConstraints ctx a)
    (hne : a.isNonExistingStorageProof = true) (hw : a.isWrongLeaf ≠ 0) :
    a.tableKeyRlcWrong = wrongKeyRlc a ∧
    a.tableKeyRlcWrong ≠ leafKeyRlc a false ∧
    (a.wrongKeyLen : F) = (a.keyLen false : F) := by
  obtain ⟨-, -, -, hwc, -⟩ := h
  obtain ⟨e1, e2, e3⟩ := (hwc.2.1 hne).1 hw
  exact ⟨e1, sub_ne_zero.mp e2, e3⟩

/-- Claim C3, witness: the wrong-leaf checks instantiated at the satisfying
non-existence assignment `aA`. -/
theorem storage_leaf_wrong_leaf_checks_w :
    storageLeafConstraints ctxA aA ∧ aA.isNonExistingStorageProof = true ∧
    aA.isWrongLeaf ≠ 0 ∧
    (aA.tableKeyRlcWrong = wrongKeyRlc aA ∧
     aA.tableKeyRlcWrong ≠ leafKeyRlc aA false ∧
     (aA.wrongKeyLen : Fp) = (aA.keyLen false : Fp)) :=
  ⟨by decide, by decide, by decide,
    storage_leaf_wrong_leaf_checks ctxA aA (by decide) (by decide) (by decide)⟩

/-- Claim C4, counterexample: a satisfying assignment (`aD`) whose S parent
is the placeholder branch and whose two lineages carry different
pre-divergence snapshots (40 in S, 50 in C); the constraints bind the
reconstruction built from the PLACEHOLDER lineage's snapshot, and the
reconstruction built from the non-placeholder lineage's snapshot — the one
the claim prescribes — differs from the drifted leaf's key RLC. -/
theorem storage_leaf_drifted_snapshot_cex :
    storageLeafConstraints ctxD aD ∧
    (aD.parentData true).isPlaceholder = true ∧
    driftedKeyRlcFrom aD (driftedSnapshotSpec aD) ≠ leafKeyRlc aD (driftedChosen aD) := by
  decide

/-- Claim C4 (amended): when either lineage's parent is a placeholder, the
drifted-key reconstruction adds the single drifted nibble to the
pre-divergence snapshot taken from the lineage whose parent IS the
placeholder (its KeyData's parent fields), requires it to equal that same
lineage's leaf key RLC, and requires the drifted leaf's full RLC and byte
length to hash-match the branch's claimed child commitment. -/
theorem storage_leaf_drifted_reconstruction {F : Type} [Field F] (ctx : MptContext F)
    (a : StorageLeafAssignment F) (h : storageLeafConstraints ctx a)
    (hp : (a.parentData true).isPlaceholder = true ∨
      (a.parentData false).isPlaceholder = true) :
    leafKeyRlc a (driftedChosen a) = driftedKeyRlcFrom a (driftedSnapshot a) ∧
    ctx.keccak (driftedFullRlc a) (a.driftedNumBytes : F)
      (a.parentData (driftedChosen a)).placeholderRlc := by
  obtain ⟨-, -, hd, -, -⟩ := h
  obtain ⟨-, -, e1, e2⟩ := hd hp
  exact ⟨e1, e2⟩

/-- Claim C4, witness: the amended drifted-leaf rule instantiated at the
satisfying drifted assignment `aD`. -/
theorem storage_leaf_drifted_reconstruction_w :
    storageLeafConstraints ctxD aD ∧
    ((aD.parentData true).isPlaceholder = true ∨
      (aD.parentData false).isPlaceholder = true) ∧
    (leafKeyRlc aD (driftedChosen aD) = driftedKeyRlcFrom aD (driftedSnapshot aD) ∧
     ctxD.keccak (driftedFullRlc aD) (aD.driftedNumBytes : Fp)
       (aD.parentData (driftedChosen aD)).placeholderRlc) :=
  ⟨by decide, by decide,
    storage_leaf_drifted_reconstruction ctxD aD (by decide) (by decide)⟩

/-- Claim C5: a storage leaf whose loaded parent reference is the empty-trie
placeholder must have value RLC zero. -/
theorem storage_leaf_placeholder_value_zero {F : Type} [Field F] (ctx : MptContext F)
    (a : StorageLeafAssignment F) (s : Lineage) (h : storageLeafConstraints ctx a)
    (hp : isPlaceholderLeaf ctx a s) :
    a.valueRlc s = 0 :=
  (lineage_of_storageLeaf ctx a h s).2.2.1 hp

/-- Claim C5, witness: the placeholder value rule instantiated at the
satisfying placeholder assignment `aC`, S lineage. -/
theorem storage_leaf_placeholder_value_zero_w :
    storageLeafConstraints ctxC aC ∧ isPlaceholderLeaf ctxC aC true ∧
    aC.valueRlc true = 0 :=
  ⟨by decide, by decide,
    storage_leaf_placeholder_value_zero ctxC aC true (by decide) (by decide)⟩

/-- Claim C6, counterexample: a satisfying assignment (`aC`) whose S lineage
is a placeholder leaf and whose S rows violate the RLP list-length identity
(5 is not 3 + 9) — in the storage leaf the identity is guarded by
non-placeholder, not unconditional. -/
theorem storage_leaf_rlp_length_unconditional_cex :
    storageLeafConstraints ctxC aC ∧
    (aC.rlpKeyNumBytes true : Fp) ≠
      (aC.rlpKeyNumBytesOnKeyRow true : Fp) + (aC.valueNumBytes true : Fp) := by
  decide

/-- Claim C6 (amended): the RLP list-length identity (total byte length
equals key-segment length plus value-segment length) is required for every
non-placeholder storage-leaf lineage, and unconditionally for each lineage
of the modified-extension gadget. -/
theorem rlp_list_length_consistency {F : Type} [Field F] (ctx : MptContext F)
    (a : StorageLeafAssignment F) (s : Lineage) (ctx2 : MptContext F)
    (m : ModExtAssignment F) (s2 : Lineage)
    (h : storageLeafConstraints ctx a) (hnp : ¬ isPlaceholderLeaf ctx a s)
    (hm : modExtConstraints ctx2 m) :
    (a.rlpKeyNumBytes s : F) = (a.rlpKeyNumBytesOnKeyRow s : F) + (a.valueNumBytes s : F) ∧
    (m.listLen s2 : F) = (m.keyValueNumBytes s2 : F) + (m.valueNumBytes s2 : F) := by
  refine ⟨(lineage_of_storageLeaf ctx a h s).2.2.2.1 hnp, ?_⟩
  obtain ⟨m1, m2, -, -⟩ := hm
  cases s2
  · exact m2.2
  · exact m1.2

/-- Claim C6, witness: the amended length identities instantiated at the
satisfying assignments `aA` (storage leaf, S lineage) and `aM`
(modified extension, long lineage). -/
theorem rlp_list_length_consistency_w :
    storageLeafConstraints ctxA aA ∧ ¬ isPlaceholderLeaf ctxA aA true ∧
    modExtConstraints ctxM aM ∧
    ((aA.rlpKeyNumBytes true : Fp) =
      (aA.rlpKeyNumBytesOnKeyRow true : Fp) + (aA.valueNumBytes true : Fp) ∧
     (aM.listLen true : Fp) = (aM.keyValueNumBytes true : Fp) + (aM.valueNumBytes true : Fp)) :=
  ⟨by decide, by decide, by decide,
    rlp_list_length_consistency ctxA aA true ctxM aM true (by decide) (by decide) (by decide)⟩

/-- Claim C7, counterexample: a satisfying modified-extension assignment
(`aM`) whose long and short key segments have different RLCs; the short
lineage's combined node RLC as the source computes it uses the long (index
0) key segment and differs from the RLC built from the short lineage's own
key segment. -/
theorem mod_ext_own_key_segment_cex :
    modExtConstraints ctxM aM ∧
    modExtNodeRlc aM false ≠ modExtNodeRlcOwn aM false := by
  decide

/-- Claim C7 (amended): the combined node RLC is always built from the long
(index 0) key segment chained in reverse with the lineage's own value
segment; a parent-binding check exists only for the S (long) lineage, where
that RLC coincides with the lineage's own-key-segment RLC, and the binding
uses it in the Keccak lookup or the direct RLC equality. -/
theorem mod_ext_parent_binding_rlc {F : Type} [Field F] (ctx : MptContext F)
    (m : ModExtAssignment F) (h : modExtConstraints ctx m) :
    modExtNodeRlc m true = modExtNodeRlcOwn m true ∧
    (((m.parentData true).isRoot = true ∨ ¬ m.listNumBytes true < 32) →
      ctx.keccakWord (modExtNodeRlcOwn m true) (m.listNumBytes true : F)
        (m.parentData true).hashLo (m.parentData true).hashHi) ∧
    (¬ ((m.parentData true).isRoot = true ∨ ¬ m.listNumBytes true < 32) →
      modExtNodeRlcOwn m true = (m.parentData true).rlc) := by
  obtain ⟨-, -, hk, he⟩ := h
  exact ⟨rfl, hk, he⟩

/-- Claim C7, witness: the amended binding rule instantiated at the
satisfying modified-extension assignment `aM`. -/
theorem mod_ext_parent_binding_rlc_w :
    modExtConstraints ctxM aM ∧
    (modExtNodeRlc aM true = modExtNodeRlcOwn aM true ∧
     (((aM.parentData true).isRoot = true ∨ ¬ aM.listNumBytes true < 32) →
       ctxM.keccakWord (modExtNodeRlcOwn aM true) (aM.listNumBytes true : Fp)
         (aM.parentData true).hashLo (aM.parentData true).hashHi) ∧
     (¬ ((aM.parentData true).isRoot = true ∨ ¬ aM.listNumBytes true < 32) →
       modExtNodeRlcOwn aM true = (aM.parentData true).rlc)) :=
  ⟨by decide, mod_ext_parent_binding_rlc ctxM aM (by decide)⟩

/-- Claim C8: the constraints bind the output-table row to the C leaf's key
RLC, the S value RLC as previous value, the C value RLC as new value, and in
the non-existence branch the wrong row's key RLC to the wrong-leaf key RLC;
and the assignment pass, when the non-existing-storage selector byte is 1,
writes the storage-does-not-exist proof-type tag and the recomputed
wrong-key RLC into the wrong row. -/
theorem storage_leaf_output_table {F : Type} [Field F] (ctx : MptContext F)
    (a : StorageLeafAssignment F) (inp : StorageLeafAssignInput F) (r : F)
    (h : storageLeafConstraints ctx a) (hne : inp.nonExistingByte = 1) :
    (a.tableKeyRlc = leafKeyRlc a false ∧
     a.tableValuePrev = a.valueRlc true ∧
     a.tableValue = a.valueRlc false ∧
     (a.isNonExistingStorageProof = true → a.isWrongLeaf ≠ 0 →
       a.tableKeyRlcWrong = wrongKeyRlc a)) ∧
    ((storageLeafAssignTable r inp).wrongRowProofType =
       some MptProofType.storageDoesNotExist ∧
     (storageLeafAssignTable r inp).wrongRowKeyRlc =
       some (assignWrongKeyRlc r inp.pvKeyRlc inp.pvKeyRlcMult
         inp.wrongRowBytes inp.keyRowCBytes)) := by
  obtain ⟨-, -, -, hwc, ht⟩ := h
  refine ⟨⟨ht.1, ht.2.1, ht.2.2, fun hp hw => ((hwc.2.1 hp).1 hw).1⟩, ?_, ?_⟩
  · simp [storageLeafAssignTable, hne]
  · simp [storageLeafAssignTable, hne]

/-- Claim C8, witness: the output-table bindings instantiated at the
satisfying assignment `aA` and the concrete assignment-pass input `inpA`. -/
theorem storage_leaf_output_table_w :
    storageLeafConstraints ctxA aA ∧ inpA.nonExistingByte = 1 ∧
    ((aA.tableKeyRlc = leafKeyRlc aA false ∧
      aA.tableValuePrev = aA.valueRlc true ∧
      aA.tableValue = aA.valueRlc false ∧
      (aA.isNonExistingStorageProof = true → aA.isWrongLeaf ≠ 0 →
        aA.tableKeyRlcWrong = wrongKeyRlc aA)) ∧
     ((storageLeafAssignTable (2 : Fp) inpA).wrongRowProofType =
        some MptProofType.storageDoesNotExist ∧
      (storageLeafAssignTable (2 : Fp) inpA).wrongRowKeyRlc =
        some (assignWrongKeyRlc (2 : Fp) inpA.pvKeyRlc inpA.pvKeyRlcMult
          inpA.wrongRowBytes inpA.keyRowCBytes))) :=
  ⟨by decide, by decide,
    storage_leaf_output_table ctxA aA inpA (2 : Fp) (by decide) (by decide)⟩

/-- Claim C9: in every satisfying assignment `is_wrong_leaf` is 0 or 1, and
it is 0 whenever the proof type is not a non-existing-storage proof. -/
theorem storage_leaf_is_wrong_leaf_boolean {F : Type} [Field F] (ctx : MptContext F)
    (a : StorageLeafAssignment F) (h : storageLeafConstraints ctx a) :
    (a.isWrongLeaf = 0 ∨ a.isWrongLeaf = 1) ∧
    (a.isNonExistingStorageProof = false → a.isWrongLeaf = 0) := by
  obtain ⟨-, -, -, hwc, -⟩ := h
  obtain ⟨hb, -, hf⟩ := hwc
  refine ⟨?_, hf⟩
  rcases mul_eq_zero.mp hb with h0 | h1
  · exact Or.inl h0
  · exact Or.inr (sub_eq_zero.mp h1)

/-- Claim C9, witness: the boolean rule instantiated at the satisfying
non-non-existence assignment `aB`. -/
theorem storage_leaf_is_wrong_leaf_boolean_w :
    storageLeafConstraints ctxB aB ∧
    ((aB.isWrongLeaf = 0 ∨ aB.isWrongLeaf = 1) ∧
     (aB.isNonExistingStorageProof = false → aB.isWrongLeaf = 0)) :=
  ⟨by decide, storage_leaf_is_wrong_leaf_boolean ctxB aB (by decide)⟩

/-- Claim C10: the wrong-key RLC computed by the assignment pass replaces
the wrong row's byte at index 0 with the first byte of the C key row before
accumulating, so it does not depend on the wrong row's own first byte. -/
theorem assign_wrong_key_first_byte_independent {F : Type} [Field F]
    (r k mu : F) (b bp : ℕ) (rest keyC : List ℕ) :
    assignWrongKeyRlc r k mu (b :: rest) keyC =
      assignWrongKeyRlc r k mu (bp :: rest) keyC :=
  rfl

end MptCore
